import Mathlib

/-
A shallow embedding of the notification core of the supervisor package
(src/supervisor/models.py and src/supervisor/message_handlers.py):
the MessageDetails value object, the Supervisor coordinator with its
global exception hook and notify fan-out, the SMTP EmailHandler and the
SendGridHandler, including their guard clauses, header construction,
attachment verification and attachment packaging.

Python dictionaries with a fixed key set are modelled as structures with
Option fields (a missing key is Option.none, key access on a missing key
is a KeyError modelled with Except.error).  Machine-level side effects
(SMTP delivery, the SendGrid HTTP POST, warnings) are modelled as
explicit result values; the filesystem is an explicit parameter listing
the existing files and directories.  Byte-level payloads (gzip bodies,
base64-encoded zip contents) are abstracted by recording the source path
they were produced from; their names, counts and order are modelled
exactly.
-/

set_option maxRecDepth 4000

namespace AgrcSupervisor

/-- A Python value that can appear as an attachment entry: None, a str,
a pathlib.Path, or some other object for which Path() raises a
TypeError.  For the last kind we record the text the object shows when
interpolated into an f-string and the message of the TypeError that
Path() raises on it. -/
inductive PyVal where
  | vNone
  | vStr (s : String)
  | vPath (s : String)
  | vBad (shown : String) (errMsg : String)
  deriving DecidableEq, Repr

/-- Python truthiness of an attachment entry: None and the empty string
are falsy, every Path and non-path object here is truthy. -/
def pyTruthy : PyVal → Bool
  | .vNone => false
  | .vStr s => !(s = "")
  | .vPath _ => true
  | .vBad _ _ => true

/-- The text an attachment entry shows when interpolated into an
f-string such as the warning lines of _verify_attachments. -/
def pyShow : PyVal → String
  | .vNone => "None"
  | .vStr s => s
  | .vPath s => s
  | .vBad shown _ => shown

/-- Path(value): returns the path string for a str or Path, and raises a
TypeError for None (CPython message carries the standard signature) and
for non-path objects (carrying that object's own message). -/
def pathOf : PyVal → Except String String
  | .vNone => .error "argument should be a str or an os.PathLike object, expected str, bytes or os.PathLike object, not NoneType"
  | .vStr s => .ok s
  | .vPath s => .ok s
  | .vBad _ errMsg => .error errMsg

/-- An entry Path() accepts: a str or a pathlib.Path. -/
def isPathLike : PyVal → Bool
  | .vStr _ => true
  | .vPath _ => true
  | _ => false

/-- The path string of a path-like entry (dummy for the others). -/
def pathStrOf : PyVal → String
  | .vStr s => s
  | .vPath s => s
  | _ => ""

/-- Whether the character list n occurs as a contiguous sublist of h;
the model of the Python `in` test on strings. -/
def charsContain (h n : List Char) : Bool :=
  match h with
  | [] => n.isEmpty
  | _ :: t => n.isPrefixOf h || charsContain t n

/-- Substring test: `pat in hay` in Python. -/
def strContains (hay pat : String) : Bool :=
  charsContain hay.data pat.data

/-- Number of positions of h at which the character list n starts. -/
def countOccurList (h n : List Char) : Nat :=
  match h with
  | [] => 0
  | _ :: t => (if n.isPrefixOf h then 1 else 0) + countOccurList t n

/-- Number of occurrences of pat in hay (counted by start position). -/
def countOccurrences (hay pat : String) : Nat :=
  countOccurList hay.data pat.data

/-- The filesystem visible to the handlers: which paths exist as regular
files and which as directories. -/
structure FileSystem where
  files : List String
  dirs : List String
  deriving DecidableEq

/-- Path.is_file(). -/
def FileSystem.isFile (fs : FileSystem) (p : String) : Bool :=
  fs.files.contains p

/-- Path.is_dir(). -/
def FileSystem.isDir (fs : FileSystem) (p : String) : Bool :=
  fs.dirs.contains p

/-- Path.exists(). -/
def FileSystem.existsPath (fs : FileSystem) (p : String) : Bool :=
  fs.isFile p || fs.isDir p

/-- Helper for Path.name: the characters after the last separator,
accumulated left to right and reset at each slash. -/
def lastSegment : List Char → List Char → List Char
  | [], acc => acc
  | c :: rest, acc => if c = '/' then lastSegment rest [] else lastSegment rest (acc ++ [c])

/-- Path.name: the final path component (the paths flowing through the
handlers carry no trailing separator). -/
def pathName (p : String) : String :=
  String.mk (lastSegment p.data [])

/-- Index of the last occurrence of the dot character, if any. -/
def lastDotIndex : List Char → Option Nat
  | [] => Option.none
  | c :: rest =>
    match lastDotIndex rest with
    | some i => some (i + 1)
    | Option.none => if c = '.' then some 0 else Option.none

/-- Path.stem of a file name: the name without its final suffix.  As in
CPython, a suffix exists only when the final dot is neither the first
nor the last character of the name. -/
def pathStem (name : String) : String :=
  match lastDotIndex name.data with
  | some i =>
    if 0 < i ∧ i + 1 < name.data.length then String.mk (name.data.take i) else name
  | Option.none => name

/-- A value bound to a key of a handler settings dict: a string, a list
of strings, a number, or None. -/
inductive SettingVal where
  | str (s : String)
  | list (xs : List String)
  | num (n : Int)
  | noneVal
  deriving DecidableEq

/-- Python truthiness of a settings value. -/
def settingTruthy : SettingVal → Bool
  | .str s => !(s = "")
  | .list xs => !xs.isEmpty
  | .num n => !(n = 0)
  | .noneVal => false

/-- The string a settings value contributes when used directly as a
header value (the claims only exercise the str case). -/
def settingStr : SettingVal → String
  | .str s => s
  | .list xs => String.intercalate "," xs
  | .num n => toString n
  | .noneVal => "None"

/-- The value held by the plain instance attribute
MessageDetails.attachments.  Assignment rebinds the attribute, so after
client assignments it holds whatever was last assigned: a bare scalar or
a list. -/
inductive AttachVal where
  | scalar (v : PyVal)
  | list (vs : List PyVal)
  deriving DecidableEq, Repr

/-- Iterating over the attachments attribute, as the handlers do: a list
yields its elements, a bare str yields its characters one by one, and a
bare Path or None raises a TypeError. -/
def AttachVal.iter : AttachVal → Except String (List PyVal)
  | .list vs => .ok vs
  | .scalar (.vStr s) => .ok (s.data.map fun c => .vStr (String.mk [c]))
  | .scalar _ => .error "TypeError: object is not iterable"

/-- MessageDetails (models.py): a data structure with plain instance
attributes message, attachments, log_file, subject and project_name. -/
structure MessageDetails where
  message : String
  attachments : AttachVal
  log_file : Option String
  subject : String
  project_name : String
  deriving DecidableEq

/-- MessageDetails.__init__: message and subject and project_name start
empty, attachments starts as the empty list, log_file starts as None. -/
def MessageDetails.init : MessageDetails :=
  { message := "", attachments := .list [], log_file := Option.none,
    subject := "", project_name := "" }

/-- Assignment `md.attachments = v`.  The attribute is a plain instance
attribute (models.py defines no property for it), so assignment rebinds
it to the assigned value, discarding the previous one. -/
def MessageDetails.assignAttachments (md : MessageDetails) (v : AttachVal) : MessageDetails :=
  { md with attachments := v }

/-- The dict email_settings of EmailHandler (message_handlers.py): keys
from_address, to_addresses, smtpServer, smtpPort are required by
send_message; the key prefix is optional.  A field holds Option.none
when the key is absent from the dict. -/
structure EmailSettings where
  from_address : Option SettingVal
  to_addresses : Option SettingVal
  smtpServer : Option SettingVal
  smtpPort : Option SettingVal
  prefix_setting : Option String
  deriving DecidableEq

/-- EmailHandler: the SMTP-based handler with its settings dict and the
client name and version used for the footer part. -/
structure EmailHandler where
  email_settings : EmailSettings
  client_name : String
  client_version : String
  deriving DecidableEq

/-- A gzip attachment part produced by _build_gzip_attachment: the file
name carried by the Content-Disposition header, the header value itself,
and the path whose bytes were gzip-compressed into the part body. -/
structure GzipAttachment where
  filename : String
  contentDisposition : String
  source : String
  deriving DecidableEq

/-- EmailHandler._build_gzip_attachment: gzips the bytes of input_path
into a part named after the original file name with .gz appended,
carried by a Content-Disposition attachment header. -/
def build_gzip_attachment (p : String) : GzipAttachment :=
  { filename := pathName p ++ ".gz",
    contentDisposition := "attachment; filename=\"" ++ pathName p ++ ".gz\"",
    source := p }

/-- One iteration of the attachment loop of _build_message: a falsy
entry (None or empty string) is skipped before any Path conversion; a
path-like entry is converted and attached only when it is an existing
regular file; a non-path entry makes Path() raise, and the exception
escapes the loop. -/
def processAttachment (fs : FileSystem) (a : PyVal) : Except String (List GzipAttachment) :=
  if !pyTruthy a then .ok []
  else
    match pathOf a with
    | .error e => .error e
    | .ok p => if fs.isFile p then .ok [build_gzip_attachment p] else .ok []

/-- The whole attachment loop of _build_message over the entries in
order. -/
def processAttachments (fs : FileSystem) : List PyVal → Except String (List GzipAttachment)
  | [] => .ok []
  | a :: rest =>
    match processAttachment fs a with
    | .error e => .error e
    | .ok xs =>
      match processAttachments fs rest with
      | .error e => .error e
      | .ok ys => .ok (xs ++ ys)

/-- The MIMEMultipart message assembled by _build_message: the two HTML
text parts (body and version footer), the Subject, From and To headers,
and the gzip attachment parts in order. -/
structure BuiltMessage where
  bodyParts : List String
  subject : String
  fromHeader : String
  toHeader : String
  gzAttachments : List GzipAttachment
  deriving DecidableEq

/-- The comma-join of to_addresses performed by _build_message: a str is
used verbatim, a list is joined with commas; joining any other value
raises a TypeError. -/
def joinAddresses : SettingVal → Except String String
  | .str s => .ok s
  | .list xs => .ok (String.intercalate "," xs)
  | _ => .error "TypeError: can only join an iterable"

/-- EmailHandler._build_message: attaches the body text part and the
version footer part, comma-joins the recipients when they are a list,
sets Subject to the configured prefix followed by the subject when the
settings carry a prefix key and to the subject alone otherwise, sets
From and To, and gzips each attachment that is an existing regular file,
skipping falsy entries.  Missing dict keys and non-path attachment
entries surface as exceptions. -/
def EmailHandler.build_message (h : EmailHandler) (md : MessageDetails) (fs : FileSystem) : Except String BuiltMessage :=
  match h.email_settings.to_addresses with
  | Option.none => .error "KeyError: to_addresses"
  | some ta =>
    match joinAddresses ta with
    | .error e => .error e
    | .ok toJoined =>
      match h.email_settings.from_address with
      | Option.none => .error "KeyError: from_address"
      | some fa =>
        match md.attachments.iter with
        | .error e => .error e
        | .ok atts =>
          match processAttachments fs atts with
          | .error e => .error e
          | .ok gz =>
            .ok { bodyParts := [md.message,
                    "<p>" ++ h.client_name ++ " version: " ++ h.client_version ++ "</p>"],
                  subject :=
                    match h.email_settings.prefix_setting with
                    | some p => p ++ md.subject
                    | Option.none => md.subject,
                  fromHeader := settingStr fa,
                  toHeader := toJoined,
                  gzAttachments := gz }

/-- The observable outcome of EmailHandler.send_message: the guard
clause warned and returned without building anything, or a message was
built and handed to smtp.sendmail, or an exception escaped. -/
inductive EmailSendResult where
  | warned (w : String)
  | sent (m : BuiltMessage)
  | raised (e : String)
  deriving DecidableEq

/-- EmailHandler.send_message: reads the four required settings keys,
warning and returning when one is missing (KeyError) or falsy; only past
both guards does it build the message and send it. -/
def EmailHandler.send_message (h : EmailHandler) (md : MessageDetails) (fs : FileSystem) : EmailSendResult :=
  match h.email_settings.from_address, h.email_settings.to_addresses,
        h.email_settings.smtpServer, h.email_settings.smtpPort with
  | some fa, some ta, some ss, some sp =>
    if settingTruthy fa && settingTruthy ta && settingTruthy ss && settingTruthy sp then
      match h.build_message md fs with
      | .ok m => .sent m
      | .error e => .raised e
    else .warned "Required email settings exist but are not populated. No emails sent."
  | _, _, _, _ => .warned "Required email settings do not exist. No emails sent."

/-- A registered message handler, as seen by Supervisor.notify: its
send_message either completes, yielding an observable delivery event
token, or raises an exception. -/
structure Handler where
  send_message : MessageDetails → Except String String

/-- Supervisor.notify over a handler list: invokes send_message on each
handler in order; a raised exception is not caught, so the handlers
after the raising one are never invoked.  Returns the delivery events of
the handlers that completed, in invocation order, and the exception that
propagated out of the loop, if any. -/
def notifyList : List Handler → MessageDetails → List String × Option String
  | [], _ => ([], Option.none)
  | h :: rest, md =>
    match h.send_message md with
    | .ok ev =>
      let r := notifyList rest md
      (ev :: r.1, r.2)
    | .error e => ([], some e)

/-- Supervisor (models.py): project name, the ordered handler list, and
the optional log path handed to the exception hook. -/
structure Supervisor where
  project_name : String
  message_handlers : List Handler
  log_path : Option String

/-- Supervisor.notify. -/
def Supervisor.notify (sup : Supervisor) (md : MessageDetails) : List String × Option String :=
  notifyList sup.message_handlers md

/-- os.linesep on the POSIX platforms the package targets. -/
def linesep : String := "\n"

/-- The global_exception_handler closure installed by
Supervisor._manage_exceptions, applied to the list of traceback lines
that traceback.format_exception produced for the uncaught exception:
joins them with os.linesep, builds a fresh MessageDetails, assigns its
message, subject, log_file and project_name attributes in that order,
and calls self.notify on it.  Returns the MessageDetails it built and
the outcome of the notify fan-out. -/
def Supervisor.global_exception_handler (sup : Supervisor) (formatted_tb : List String) :
    MessageDetails × (List String × Option String) :=
  let error := String.intercalate linesep formatted_tb
  let md0 := MessageDetails.init
  let md1 := { md0 with message := error }
  let md2 := { md1 with subject := "ERROR" }
  let md3 := { md2 with log_file := sup.log_path }
  let md4 := { md3 with project_name := sup.project_name }
  (md4, sup.notify md4)

/-- The dict sendgrid_settings of SendGridHandler: from_address,
to_addresses and api_key, with prefix optional.  A field holds
Option.none when the key is absent. -/
structure SendgridSettings where
  from_address : Option SettingVal
  to_addresses : Option SettingVal
  api_key : Option String
  prefix_setting : Option String
  deriving DecidableEq

/-- SendGridHandler after a successful __init__: the settings dict, the
api key the SendGridAPIClient was constructed with, and the client name
and version for the footer. -/
structure SendGridHandler where
  sendgrid_settings : SendgridSettings
  api_key : String
  client_name : String
  client_version : String
  deriving DecidableEq

/-- SendGridHandler.__init__: constructs the SendGridAPIClient with
sendgrid_settings[api_key] immediately, so a settings dict without that
key raises a KeyError at construction time. -/
def SendGridHandler.init (ss : SendgridSettings) (client_name client_version : String) :
    Except String SendGridHandler :=
  match ss.api_key with
  | Option.none => .error "KeyError: api_key"
  | some k => .ok { sendgrid_settings := ss, api_key := k,
                    client_name := client_name, client_version := client_version }

/-- SendGridHandler._verify_addresses: reads from_address and
to_addresses out of the settings, warning and returning None when either
key is absent or either value is falsy; its result is the warning text
on the guard paths and the pair of raw values otherwise. -/
def verify_addresses (ss : SendgridSettings) : Except String (SettingVal × SettingVal) :=
  match ss.from_address, ss.to_addresses with
  | some fa, some ta =>
    if settingTruthy fa && settingTruthy ta then .ok (fa, ta)
    else .error "To/From address settings exist but are empty. No emails sent."
  | _, _ => .error "To/From address settings do not exist. No emails sent."

/-- SendGridHandler._build_recipient_addresses: one To entry for a bare
string, one per element for a list, and a TypeError when the value
cannot be iterated into addresses. -/
def recipientsOf : SettingVal → Except String (List String)
  | .str s => .ok [s]
  | .list xs => .ok xs
  | _ => .error "TypeError: object is not iterable"

/-- SendGridHandler._build_subject: the subject of the details, with the
configured prefix prepended when the settings carry a prefix key. -/
def buildSubject (ss : SendgridSettings) (md : MessageDetails) : String :=
  match ss.prefix_setting with
  | some p => p ++ md.subject
  | Option.none => md.subject

/-- The TypeError signature _verify_attachments looks for. -/
def typeErrSig : String := "expected str, bytes or os.PathLike object, not"

/-- The loop body of SendGridHandler._verify_attachments: accumulates
the warning text and the list of verified attachments.  A convertible
path that exists is kept; one that does not exist contributes one
warning line; a value on which Path() raises a TypeError carrying the
known signature contributes a different warning line, and one raising
any other TypeError message contributes nothing at all. -/
def verifyLoop (fs : FileSystem) : List PyVal → String × List PyVal
  | [] => ("", [])
  | a :: rest =>
    let r := verifyLoop fs rest
    match pathOf a with
    | .ok p =>
      if fs.existsPath p then (r.1, a :: r.2)
      else ("* Attachment \"" ++ pyShow a ++ "\" does not exist\n" ++ r.1, r.2)
    | .error e =>
      if strContains e typeErrSig then
        ("* Cannot get Path() of attachment \"" ++ pyShow a ++ "\"\n" ++ r.1, r.2)
      else r

/-- A row of twenty equals signs, the banner delimiter. -/
def eqRow : String := "===================="

/-- The banner _verify_attachments wraps a non-empty warning text in. -/
def bannerOf (em : String) : String :=
  eqRow ++ "\n Supervisor Warning\n" ++ eqRow ++ "\n" ++ em ++ eqRow ++ "\n\n"

/-- SendGridHandler._verify_attachments: runs the loop and, when any
warning line was produced, wraps the accumulated text in the banner. -/
def verifyAttachments (fs : FileSystem) (atts : List PyVal) : String × List PyVal :=
  let r := verifyLoop fs atts
  (if r.1 = "" then "" else bannerOf r.1, r.2)

/-- A SendGrid Attachment object built by _build_attachment: the file
name, the MIME type, and the path whose zipped bytes were base64-encoded
into the content. -/
structure SgAttachment where
  file_name : String
  file_type : String
  source : String
  deriving DecidableEq

/-- Path.with_suffix applied with .zip: drops the final suffix of the
name, when it has one, and appends .zip in its place. -/
def withSuffixZip (name : String) : String :=
  pathStem name ++ ".zip"

/-- The zip file name _process_attachments creates in the working
directory for one attachment path: a directory is zipped by make_archive
into an archive named after the directory with .zip appended; a file is
zipped by _zip_single_file into Path(working_dir, stem).with_suffix(zip)
— with_suffix replaces a residual suffix left in the stem, so
archive.tar.gz zips to archive.zip. -/
def zipName (fs : FileSystem) (p : String) : String :=
  if fs.isDir p then pathName p ++ ".zip" else withSuffixZip (pathStem (pathName p))

/-- SendGridHandler._process_attachments over the verified attachments,
carrying the zip file names already created in the temporary working
directory.  make_archive opens its archive in write mode and overwrites,
but _zip_single_file opens ZipFile in exclusive-create mode x, so a file
whose zip name was already created raises FileExistsError, which
escapes send_message; otherwise each attachment contributes one
Attachment object carrying the zip name, the application/zip MIME type
and the base64-encoded zip bytes of its source path, in supply order. -/
def processZips (fs : FileSystem) : List PyVal → List String → Except String (List SgAttachment)
  | [], _ => .ok []
  | a :: rest, made =>
    match pathOf a with
    | .error e => .error e
    | .ok p =>
      let zn := zipName fs p
      if !fs.isDir p && made.contains zn then
        .error ("FileExistsError: " ++ zn)
      else
        match processZips fs rest (zn :: made) with
        | .error e => .error e
        | .ok xs =>
          .ok ({ file_name := zn, file_type := "application/zip", source := p } :: xs)

/-- The Mail object handed to the SendGrid POST: sender, recipients,
subject, the plain-text content, and the attachment objects in order. -/
structure SgMail where
  from_email : String
  tos : List String
  subject : String
  content_type : String
  content_value : String
  attachments : List SgAttachment
  deriving DecidableEq

/-- What SendGridHandler.send_message has done by the time it reaches
the POST: returned early from the address guard, raised while preparing
the message, or assembled a Mail object ready to post. -/
inductive SgPrep where
  | guard (w : String)
  | fail (e : String)
  | ready (m : SgMail)
  deriving DecidableEq

/-- The preparation phase of SendGridHandler.send_message, everything
before the POST: verify the addresses and return on the guard, build the
recipient list, prepend the attachment warning banner to the message,
append the client version footer to form the plain-text content, and zip
the verified attachments in order. -/
def SendGridHandler.prepareMail (h : SendGridHandler) (md : MessageDetails) (fs : FileSystem) : SgPrep :=
  match verify_addresses h.sendgrid_settings with
  | .error w => .guard w
  | .ok (fa, ta) =>
    match recipientsOf ta with
    | .error e => .fail e
    | .ok tos =>
      match md.attachments.iter with
      | .error e => .fail e
      | .ok atts =>
        let vg := verifyAttachments fs atts
        match processZips fs vg.2 [] with
        | .error e => .fail e
        | .ok zips =>
          .ready { from_email := settingStr fa,
                   tos := tos,
                   subject := buildSubject h.sendgrid_settings md,
                   content_type := "text/plain",
                   content_value := vg.1 ++ md.message ++ "\n\n" ++ h.client_name
                     ++ " version: " ++ h.client_version,
                   attachments := zips }

/-- The outcome of the POST call, an input to send_message: success, a
python_http_client.BadRequestsError whose str() is m, an
UnauthorizedError whose str() is m, or an exception of any other type.
-/
inductive PostOutcome where
  | success
  | badRequest (m : String)
  | unauthorized (m : String)
  | otherError (m : String)
  deriving DecidableEq

/-- The observable outcome of SendGridHandler.send_message. -/
inductive SgSendResult where
  | guardReturn (w : String)
  | sentOk (mail : SgMail)
  | warnedHttp (w : String) (mail : SgMail)
  | raised (e : String)
  deriving DecidableEq

/-- The 400 signature matched against str(err). -/
def sig400 : String := "HTTP Error 400: Bad Request"

/-- The 401 signature matched against str(err). -/
def sig401 : String := "HTTP Error 401: Unauthorized"

/-- SendGridHandler.send_message: prepare the Mail, POST it, and map the
POST errors: a BadRequestsError whose text carries the 400 signature is
downgraded to a warning, any other BadRequestsError is re-raised; an
UnauthorizedError whose text carries the 401 signature is downgraded to
a warning, any other UnauthorizedError is re-raised; exceptions of any
other type are not caught. -/
def SendGridHandler.send_message (h : SendGridHandler) (md : MessageDetails) (fs : FileSystem)
    (post : PostOutcome) : SgSendResult :=
  match h.prepareMail md fs with
  | .guard w => .guardReturn w
  | .fail e => .raised e
  | .ready mail =>
    match post with
    | .success => .sentOk mail
    | .badRequest m =>
      if strContains m sig400 then
        .warnedHttp "SendGrid error 400, might be missing a required Mail component; no e-mail sent." mail
      else .raised m
    | .unauthorized m =>
      if strContains m sig401 then
        .warnedHttp "SendGrid error 401: Unauthorized. Check API key." mail
      else .raised m
    | .otherError m => .raised m

/-- Claim C1: the claim says assigning a scalar to attachments appends
and repeated assignments are cumulative.  On the code, attachments is a
plain instance attribute, so assignment replaces the previous value:
after assigning the scalar a.txt and then the scalar b.txt, the
attribute holds the bare scalar b.txt, the first assignment is lost, and
assigning the single scalar of the repository's own test
test_attachments_single_str leaves the bare string, not the
one-element list the test asserts. -/
theorem C1_assignment_replaces :
  ((MessageDetails.init.assignAttachments (AttachVal.scalar (PyVal.vStr "a.txt"))).assignAttachments
      (AttachVal.scalar (PyVal.vStr "b.txt"))).attachments = AttachVal.scalar (PyVal.vStr "b.txt")
  ∧ (MessageDetails.init.assignAttachments
      (AttachVal.scalar (PyVal.vStr "c:/temp/foo.bar"))).attachments
      ≠ AttachVal.list [PyVal.vStr "c:/temp/foo.bar"] := by
  exact ⟨rfl, by decide⟩

/-- Claim C2 counterexample: for a Supervisor constructed with a log
path, the MessageDetails the exception hook builds has empty
attachments — the log path is stored in the log_file attribute instead —
so the attachments do not contain the configured log_path. -/
theorem C2_counterexample :
  ((Supervisor.mk "proj" [] (some "/tmp/app.log")).global_exception_handler
      ["Traceback (most recent call last):", "ValueError: boom"]).1.attachments
    = AttachVal.list []
  ∧ ((Supervisor.mk "proj" [] (some "/tmp/app.log")).global_exception_handler
      ["Traceback (most recent call last):", "ValueError: boom"]).1.attachments
    ≠ AttachVal.list [PyVal.vPath "/tmp/app.log"]
  ∧ ((Supervisor.mk "proj" [] (some "/tmp/app.log")).global_exception_handler
      ["Traceback (most recent call last):", "ValueError: boom"]).1.log_file
    = some "/tmp/app.log" := by
  exact ⟨rfl, by decide, rfl⟩

/-- Claim C2 (amended): for every uncaught exception delivered to the
hook, the hook builds a MessageDetails whose subject is ERROR, whose
message is the os.linesep-join of the formatted traceback lines, whose
log_file attribute holds the configured log_path (the attachments list
stays empty), and whose project_name is the supervisor's, and then calls
notify with exactly that MessageDetails. -/
theorem C2_hook_builds_details (sup : Supervisor) (tb : List String) :
  (sup.global_exception_handler tb).1.subject = "ERROR"
  ∧ (sup.global_exception_handler tb).1.message = String.intercalate linesep tb
  ∧ (sup.global_exception_handler tb).1.log_file = sup.log_path
  ∧ (sup.global_exception_handler tb).1.project_name = sup.project_name
  ∧ (sup.global_exception_handler tb).1.attachments = AttachVal.list []
  ∧ (sup.global_exception_handler tb).2 = sup.notify (sup.global_exception_handler tb).1 := by
  exact ⟨rfl, rfl, rfl, rfl, rfl, rfl⟩

/-- Claim C3: whenever any one of the four required email settings keys
is missing or any one of them is bound to a falsy value, send_message
warns and returns; it neither builds a message nor raises: in the model
the builder is invoked only on the branch producing a sent result, and
the result here is a warned result. -/
theorem C3_email_guard (h : EmailHandler) (md : MessageDetails) (fs : FileSystem)
    (hbad : h.email_settings.from_address = Option.none
      ∨ h.email_settings.to_addresses = Option.none
      ∨ h.email_settings.smtpServer = Option.none
      ∨ h.email_settings.smtpPort = Option.none
      ∨ (∃ v, h.email_settings.from_address = some v ∧ settingTruthy v = false)
      ∨ (∃ v, h.email_settings.to_addresses = some v ∧ settingTruthy v = false)
      ∨ (∃ v, h.email_settings.smtpServer = some v ∧ settingTruthy v = false)
      ∨ (∃ v, h.email_settings.smtpPort = some v ∧ settingTruthy v = false)) :
    ∃ w, h.send_message md fs = EmailSendResult.warned w := by
  cases hfa : h.email_settings.from_address with
  | none => exact ⟨"Required email settings do not exist. No emails sent.", by simp [EmailHandler.send_message, hfa]⟩
  | some fa =>
  cases hta : h.email_settings.to_addresses with
  | none => exact ⟨"Required email settings do not exist. No emails sent.", by simp [EmailHandler.send_message, hfa, hta]⟩
  | some ta =>
  cases hss : h.email_settings.smtpServer with
  | none => exact ⟨"Required email settings do not exist. No emails sent.", by simp [EmailHandler.send_message, hfa, hta, hss]⟩
  | some ss =>
  cases hsp : h.email_settings.smtpPort with
  | none => exact ⟨"Required email settings do not exist. No emails sent.", by simp [EmailHandler.send_message, hfa, hta, hss, hsp]⟩
  | some sp =>
  have hfalse : (settingTruthy fa && settingTruthy ta && settingTruthy ss && settingTruthy sp) = false := by
    rcases hbad with h1 | h1 | h1 | h1 | ⟨v, hv, hvf⟩ | ⟨v, hv, hvf⟩ | ⟨v, hv, hvf⟩ | ⟨v, hv, hvf⟩
    · rw [hfa] at h1; exact absurd h1 (by simp)
    · rw [hta] at h1; exact absurd h1 (by simp)
    · rw [hss] at h1; exact absurd h1 (by simp)
    · rw [hsp] at h1; exact absurd h1 (by simp)
    · rw [hfa] at hv; injection hv with hv; subst hv; simp [hvf]
    · rw [hta] at hv; injection hv with hv; subst hv; simp [hvf]
    · rw [hss] at hv; injection hv with hv; subst hv; simp [hvf]
    · rw [hsp] at hv; injection hv with hv; subst hv; simp [hvf]
  refine ⟨"Required email settings exist but are not populated. No emails sent.", ?_⟩
  simp only [EmailHandler.send_message, hfa, hta, hss, hsp, hfalse]
  rfl

/-- Claim C3 witness: a concrete handler whose settings dict lacks the
from_address key warns instead of building a message. -/
theorem C3_email_guard_witness :
  ∃ w, EmailHandler.send_message
    { email_settings :=
        { from_address := Option.none,
          to_addresses := some (SettingVal.str "to@x.com"),
          smtpServer := some (SettingVal.str "smtp.x.com"),
          smtpPort := some (SettingVal.num 25),
          prefix_setting := Option.none },
      client_name := "client", client_version := "1.0" }
    MessageDetails.init (FileSystem.mk [] []) = EmailSendResult.warned w := by
  exact C3_email_guard _ _ _ (Or.inl rfl)

/-- Claim C4: once the Mail is prepared, a BadRequestsError whose text
carries the 400 bad-request signature makes send_message warn and return
normally, one with any other text is re-raised unchanged; the symmetric
rule holds for UnauthorizedError with the 401 signature, and an
exception of any other type propagates uncaught. -/
theorem C4_post_error_mapping (h : SendGridHandler) (md : MessageDetails) (fs : FileSystem)
    (mail : SgMail) (m : String)
    (hprep : h.prepareMail md fs = SgPrep.ready mail) :
    (strContains m sig400 = true →
      h.send_message md fs (PostOutcome.badRequest m)
        = SgSendResult.warnedHttp
            "SendGrid error 400, might be missing a required Mail component; no e-mail sent." mail)
    ∧ (strContains m sig400 = false →
      h.send_message md fs (PostOutcome.badRequest m) = SgSendResult.raised m)
    ∧ (strContains m sig401 = true →
      h.send_message md fs (PostOutcome.unauthorized m)
        = SgSendResult.warnedHttp "SendGrid error 401: Unauthorized. Check API key." mail)
    ∧ (strContains m sig401 = false →
      h.send_message md fs (PostOutcome.unauthorized m) = SgSendResult.raised m)
    ∧ h.send_message md fs (PostOutcome.otherError m) = SgSendResult.raised m := by
  refine ⟨?_, ?_, ?_, ?_, ?_⟩ <;>
    first
      | (intro hc; simp [SendGridHandler.send_message, hprep, hc])
      | simp [SendGridHandler.send_message, hprep]

/-- A concrete handler with valid addresses for exercising the POST
error mapping. -/
def sgDemo : SendGridHandler :=
  { sendgrid_settings :=
      { from_address := some (SettingVal.str "from@x.com"),
        to_addresses := some (SettingVal.str "to@x.com"),
        api_key := some "SG.KEY", prefix_setting := Option.none },
    api_key := "SG.KEY", client_name := "client", client_version := "1.0" }

/-- The Mail sgDemo prepares for an empty MessageDetails. -/
def sgMailDemo : SgMail :=
  { from_email := "from@x.com", tos := ["to@x.com"], subject := "",
    content_type := "text/plain", content_value := "\n\nclient version: 1.0",
    attachments := [] }

/-- Claim C4 witness: a POST failure carrying the 400 bad-request
signature is downgraded to a warning for a concrete handler. -/
theorem C4_post_error_mapping_witness :
  SendGridHandler.send_message sgDemo MessageDetails.init (FileSystem.mk [] [])
      (PostOutcome.badRequest "HTTP Error 400: Bad Request, body: missing content")
    = SgSendResult.warnedHttp
        "SendGrid error 400, might be missing a required Mail component; no e-mail sent."
        sgMailDemo := by
  exact (C4_post_error_mapping sgDemo MessageDetails.init (FileSystem.mk [] []) sgMailDemo
    "HTTP Error 400: Bad Request, body: missing content" rfl).1 (by decide)

/-- Claim C6: notify invokes send_message on each handler in
registration order with the same MessageDetails — when all handlers
complete, every handler's delivery event appears, in order — and there
is no per-handler isolation: when the handler after some succeeding
handlers raises, only the earlier handlers' events appear, the exception
propagates, and the handlers after the raising one are never invoked. -/
theorem C6_notify_order_and_propagation (md : MessageDetails) :
    (∀ (hs : List Handler) (evs : List String),
      hs.map (fun h => h.send_message md) = evs.map Except.ok →
      notifyList hs md = (evs, Option.none))
    ∧ (∀ (hs1 : List Handler) (hbad : Handler) (hs2 : List Handler) (evs : List String) (e : String),
      hs1.map (fun h => h.send_message md) = evs.map Except.ok →
      hbad.send_message md = Except.error e →
      notifyList (hs1 ++ hbad :: hs2) md = (evs, some e)) := by
  constructor
  · intro hs
    induction hs with
    | nil =>
      intro evs hevs
      cases evs with
      | nil => rfl
      | cons ev evs' => simp at hevs
    | cons hd tl ih =>
      intro evs hevs
      cases evs with
      | nil => simp at hevs
      | cons ev evs' =>
        simp only [List.map_cons, List.cons.injEq] at hevs
        obtain ⟨h1, h2⟩ := hevs
        simp only [notifyList, h1, ih evs' h2]
  · intro hs1
    induction hs1 with
    | nil =>
      intro hbad hs2 evs e hevs herr
      cases evs with
      | nil => simp only [List.nil_append, notifyList, herr]
      | cons ev evs' => simp at hevs
    | cons hd tl ih =>
      intro hbad hs2 evs e hevs herr
      cases evs with
      | nil => simp at hevs
      | cons ev evs' =>
        simp only [List.map_cons, List.cons.injEq] at hevs
        obtain ⟨h1, h2⟩ := hevs
        simp only [List.cons_append, notifyList, h1, List.append_eq,
          ih hbad hs2 evs' e h2 herr]

/-- A handler that completes, for the notify witness. -/
def consoleOk : Handler := { send_message := fun _ => Except.ok "console printed" }

/-- A handler that raises, for the notify witness. -/
def smtpBoom : Handler := { send_message := fun _ => Except.error "SMTPException" }

/-- A later handler that would complete, for the notify witness. -/
def sendgridOk : Handler := { send_message := fun _ => Except.ok "sendgrid posted" }

/-- Claim C6 witness: with a succeeding handler, then a raising one,
then another handler, notify yields only the first event, propagates the
exception, and never reaches the third handler. -/
theorem C6_notify_witness :
  notifyList [consoleOk, smtpBoom, sendgridOk] MessageDetails.init
    = (["console printed"], some "SMTPException") := by
  exact (C6_notify_order_and_propagation MessageDetails.init).2
    [consoleOk] smtpBoom [sendgridOk] ["console printed"] "SMTPException" rfl rfl

/-- Helper for claim C9: a loop entry whose Path() conversion raises a
TypeError with an unrecognized message changes neither the accumulated
warning text nor the verified list. -/
theorem verifyLoop_drops_unrecognized (fs : FileSystem) (shown m : String)
    (atts1 atts2 : List PyVal) (hm : strContains m typeErrSig = false) :
    verifyLoop fs (atts1 ++ PyVal.vBad shown m :: atts2) = verifyLoop fs (atts1 ++ atts2) := by
  induction atts1 with
  | nil => simp [verifyLoop, pathOf, hm]
  | cons a rest ih => simp only [List.cons_append, verifyLoop, List.append_eq, ih]

/-- Claim C9: an attachment value whose Path() conversion raises a
TypeError whose message does not carry the expected-str-bytes-PathLike
signature is dropped silently by the verification pass: the warning text
and the verified attachment list are exactly those of the same input
without that value, and no exception is raised (the pass is total). -/
theorem C9_unrecognized_typeerror_silent (fs : FileSystem) (shown m : String)
    (atts1 atts2 : List PyVal) (hm : strContains m typeErrSig = false) :
    verifyAttachments fs (atts1 ++ PyVal.vBad shown m :: atts2)
      = verifyAttachments fs (atts1 ++ atts2) := by
  unfold verifyAttachments
  rw [verifyLoop_drops_unrecognized fs shown m atts1 atts2 hm]

/-- Claim C9 witness: a dict-valued attachment, whose Path() TypeError
message (newer CPython wording) lacks the matched signature, vanishes
from the verification result without a warning line. -/
theorem C9_unrecognized_typeerror_witness :
  verifyAttachments (FileSystem.mk ["/a/one.txt"] [])
      [PyVal.vStr "/a/one.txt",
       PyVal.vBad "<dict>"
         "argument should be a str or an os.PathLike object where __fspath__ returns a str",
       PyVal.vStr "/a/missing.txt"]
    = verifyAttachments (FileSystem.mk ["/a/one.txt"] [])
        [PyVal.vStr "/a/one.txt", PyVal.vStr "/a/missing.txt"] := by
  exact C9_unrecognized_typeerror_silent (FileSystem.mk ["/a/one.txt"] []) "<dict>"
    "argument should be a str or an os.PathLike object where __fspath__ returns a str"
    [PyVal.vStr "/a/one.txt"] [PyVal.vStr "/a/missing.txt"] (by decide)

/-- Claim C10: a settings dict without the api_key key makes
SendGridHandler construction raise a KeyError, and the address guard is
insensitive to api_key — it reads only the from and to addresses — so it
offers no protection against a missing API key. -/
theorem C10_missing_api_key (ss : SendgridSettings) (cn cv : String)
    (hk : ss.api_key = Option.none) :
    SendGridHandler.init ss cn cv = Except.error "KeyError: api_key"
    ∧ (∀ k, verify_addresses { ss with api_key := k } = verify_addresses ss) := by
  constructor
  · simp [SendGridHandler.init, hk]
  · intro k; rfl

/-- A settings dict with valid addresses but no api_key key. -/
def ssNoKey : SendgridSettings :=
  { from_address := some (SettingVal.str "from@x.com"),
    to_addresses := some (SettingVal.str "to@x.com"),
    api_key := Option.none, prefix_setting := Option.none }

/-- Claim C10 witness: constructing a handler over ssNoKey raises the
KeyError even though both addresses are present and populated. -/
theorem C10_missing_api_key_witness :
  SendGridHandler.init ssNoKey "client" "1.0" = Except.error "KeyError: api_key" :=
  (C10_missing_api_key ssNoKey "client" "1.0" rfl).1

/-- Claim C7: an email built from a valid configuration carries Subject
equal to the configured prefix followed by the details subject when a
prefix key is configured and the subject verbatim otherwise, From equal
to the configured from address, and To equal to the comma-join of the
recipients when to_addresses is a list and the single string verbatim
when it is a string. -/
theorem C7_email_headers (h : EmailHandler) (md : MessageDetails) (fs : FileSystem)
    (fa : String) (ta : SettingVal) (m : BuiltMessage)
    (hfa : h.email_settings.from_address = some (SettingVal.str fa))
    (hta : h.email_settings.to_addresses = some ta)
    (hm : h.build_message md fs = Except.ok m) :
    m.subject = (match h.email_settings.prefix_setting with
                 | some p => p ++ md.subject
                 | Option.none => md.subject)
    ∧ m.fromHeader = fa
    ∧ m.toHeader = (match ta with
                    | SettingVal.str s => s
                    | SettingVal.list xs => String.intercalate "," xs
                    | _ => "") := by
  unfold EmailHandler.build_message at hm
  simp only [hta, hfa] at hm
  cases ta with
  | noneVal => simp [joinAddresses] at hm
  | num n => simp [joinAddresses] at hm
  | str s =>
    simp only [joinAddresses] at hm
    cases hiter : md.attachments.iter with
    | error e => simp only [hiter] at hm; cases hm
    | ok atts =>
      simp only [hiter] at hm
      cases hpa : processAttachments fs atts with
      | error e => simp only [hpa] at hm; cases hm
      | ok gz =>
        simp only [hpa, Except.ok.injEq] at hm
        subst hm
        exact ⟨rfl, rfl, rfl⟩
  | list xs =>
    simp only [joinAddresses] at hm
    cases hiter : md.attachments.iter with
    | error e => simp only [hiter] at hm; cases hm
    | ok atts =>
      simp only [hiter] at hm
      cases hpa : processAttachments fs atts with
      | error e => simp only [hpa] at hm; cases hm
      | ok gz =>
        simp only [hpa, Except.ok.injEq] at hm
        subst hm
        exact ⟨rfl, rfl, rfl⟩

/-- A handler with a full valid configuration, three recipients and a
subject prefix, for the header witness. -/
def emailDemo : EmailHandler :=
  { email_settings :=
      { from_address := some (SettingVal.str "from@x.com"),
        to_addresses := some (SettingVal.list ["a@x.com", "b@x.com", "c@x.com"]),
        smtpServer := some (SettingVal.str "smtp.x.com"),
        smtpPort := some (SettingVal.num 25),
        prefix_setting := some "Alert: " },
    client_name := "client", client_version := "1.0" }

/-- The details rendered by the header witness. -/
def mdDemoC7 : MessageDetails :=
  { message := "hello", attachments := AttachVal.list [], log_file := Option.none,
    subject := "subj", project_name := "" }

/-- The message emailDemo builds from mdDemoC7. -/
def builtDemo : BuiltMessage :=
  { bodyParts := ["hello", "<p>client version: 1.0</p>"],
    subject := "Alert: subj", fromHeader := "from@x.com",
    toHeader := "a@x.com,b@x.com,c@x.com", gzAttachments := [] }

/-- Claim C7 witness: the three-recipient list renders To as the
comma-join, From as the configured address, Subject as the prefixed
subject. -/
theorem C7_email_headers_witness :
  builtDemo.subject = "Alert: " ++ mdDemoC7.subject
  ∧ builtDemo.fromHeader = "from@x.com"
  ∧ builtDemo.toHeader = String.intercalate "," ["a@x.com", "b@x.com", "c@x.com"] := by
  exact C7_email_headers emailDemo mdDemoC7 (FileSystem.mk [] []) "from@x.com"
    (SettingVal.list ["a@x.com", "b@x.com", "c@x.com"]) builtDemo rfl rfl rfl

/-- Claim C8: in the SMTP handler attachment pass, a None entry and an
empty-string entry each produce no compression and no attached part; a
path-like entry naming an existing regular file produces exactly one
gzip part named after the original file name with .gz appended and
carrying a Content-Disposition attachment header; a path-like entry
naming no regular file produces no part (and the pass has no warning
channel at all); and the pass over a list concatenates the per-entry
results in order. -/
theorem C8_gzip_attachment_pass (fs : FileSystem) :
    processAttachment fs PyVal.vNone = Except.ok []
    ∧ processAttachment fs (PyVal.vStr "") = Except.ok []
    ∧ (∀ a, isPathLike a = true → pyTruthy a = true → fs.isFile (pathStrOf a) = true →
        processAttachment fs a = Except.ok [build_gzip_attachment (pathStrOf a)]
        ∧ (build_gzip_attachment (pathStrOf a)).filename = pathName (pathStrOf a) ++ ".gz"
        ∧ (build_gzip_attachment (pathStrOf a)).contentDisposition
            = "attachment; filename=\"" ++ pathName (pathStrOf a) ++ ".gz\"")
    ∧ (∀ a, isPathLike a = true → fs.isFile (pathStrOf a) = false →
        processAttachment fs a = Except.ok [])
    ∧ (∀ a rest xs ys, processAttachment fs a = Except.ok xs →
        processAttachments fs rest = Except.ok ys →
        processAttachments fs (a :: rest) = Except.ok (xs ++ ys)) := by
  refine ⟨rfl, rfl, ?_, ?_, ?_⟩
  · intro a h1 h2 h3
    cases a with
    | vNone => simp [isPathLike] at h1
    | vBad shown msg => simp [isPathLike] at h1
    | vStr s =>
      simp only [pathStrOf] at h3 ⊢
      refine ⟨?_, rfl, rfl⟩
      simp [processAttachment, h2, pathOf, h3]
    | vPath s =>
      simp only [pathStrOf] at h3 ⊢
      refine ⟨?_, rfl, rfl⟩
      simp [processAttachment, h2, pathOf, h3]
  · intro a h1 h3
    cases a with
    | vNone => simp [isPathLike] at h1
    | vBad shown msg => simp [isPathLike] at h1
    | vStr s =>
      simp only [pathStrOf] at h3
      cases h2 : pyTruthy (PyVal.vStr s) with
      | false => simp [processAttachment, h2]
      | true => simp [processAttachment, h2, pathOf, h3]
    | vPath s =>
      simp only [pathStrOf] at h3
      simp [processAttachment, pyTruthy, pathOf, h3]
  · intro a rest xs ys h1 h2
    simp [processAttachments, h1, h2]

/-- The filesystem of the gzip witness: one log file exists. -/
def fsC8 : FileSystem := { files := ["/logs/app.log"], dirs := [] }

/-- Claim C8 witness: an existing log file yields exactly one gzip part
named app.log.gz with the attachment disposition header. -/
theorem C8_gzip_attachment_pass_witness :
  processAttachment fsC8 (PyVal.vStr "/logs/app.log")
      = Except.ok [build_gzip_attachment "/logs/app.log"]
  ∧ (build_gzip_attachment "/logs/app.log").filename = "app.log.gz"
  ∧ (build_gzip_attachment "/logs/app.log").contentDisposition
      = "attachment; filename=\"app.log.gz\"" := by
  have h := (C8_gzip_attachment_pass fsC8).2.2.1 (PyVal.vStr "/logs/app.log")
    (by decide) (by decide) (by decide)
  exact ⟨h.1, h.2.1.trans (by decide), h.2.2.trans (by decide)⟩

/-- Helper for claim C5: on a list of path-like entries, the
verification loop produces one does-not-exist warning line per
non-existing entry, concatenated in order, and keeps exactly the
existing entries in their original order. -/
theorem verifyLoop_pathlike (fs : FileSystem) (atts : List PyVal)
    (hpl : ∀ a ∈ atts, isPathLike a = true) :
    verifyLoop fs atts
      = (((atts.filter fun a => !fs.existsPath (pathStrOf a)).map
            fun a => "* Attachment \"" ++ pyShow a ++ "\" does not exist\n").foldr
            (fun x acc => x ++ acc) "",
         atts.filter fun a => fs.existsPath (pathStrOf a)) := by
  induction atts with
  | nil => rfl
  | cons a rest ih =>
    have ha : isPathLike a = true := hpl a (List.mem_cons_self a rest)
    have hr : ∀ b ∈ rest, isPathLike b = true := fun b hb => hpl b (List.mem_cons_of_mem a hb)
    cases a with
    | vNone => simp [isPathLike] at ha
    | vBad shown msg => simp [isPathLike] at ha
    | vStr s =>
      cases hex : fs.existsPath s with
      | true => simp [verifyLoop, pathOf, hex, ih hr, List.filter_cons, pathStrOf]
      | false => simp [verifyLoop, pathOf, hex, ih hr, List.filter_cons, pathStrOf]
    | vPath s =>
      cases hex : fs.existsPath s with
      | true => simp [verifyLoop, pathOf, hex, ih hr, List.filter_cons, pathStrOf]
      | false => simp [verifyLoop, pathOf, hex, ih hr, List.filter_cons, pathStrOf]

/-- Helper for claim C5: whenever the packaging loop completes without a
FileExistsError, it produces exactly one application/zip attachment
object per verified entry, in supply order, sourced at that entry's
path. -/
theorem processZips_shape (fs : FileSystem) :
    ∀ (atts : List PyVal) (made : List String) (xs : List SgAttachment),
    processZips fs atts made = Except.ok xs →
    xs.map (fun z => z.source) = atts.map pathStrOf
    ∧ xs.length = atts.length
    ∧ (∀ z ∈ xs, z.file_type = "application/zip") := by
  intro atts
  induction atts with
  | nil =>
    intro made xs hx
    simp only [processZips, Except.ok.injEq] at hx
    subst hx
    simp
  | cons a rest ih =>
    intro made xs hx
    cases hpo : pathOf a with
    | error e => simp [processZips, hpo] at hx
    | ok p =>
      simp only [processZips, hpo] at hx
      split at hx
      · exact absurd hx (by simp)
      · cases hrec : processZips fs rest (zipName fs p :: made) with
        | error e => simp [hrec] at hx
        | ok ys =>
          simp only [hrec, Except.ok.injEq] at hx
          subst hx
          obtain ⟨ih1, ih2, ih3⟩ := ih (zipName fs p :: made) ys hrec
          have hps : pathStrOf a = p := by
            cases a with
            | vStr s => simp [pathOf] at hpo; simpa [pathStrOf] using hpo
            | vPath s => simp [pathOf] at hpo; simpa [pathStrOf] using hpo
            | vNone => simp [pathOf] at hpo
            | vBad sh ms => simp [pathOf] at hpo
          refine ⟨?_, ?_, ?_⟩
          · simp [List.map_cons, ih1, hps]
          · simp [ih2]
          · intro z hz
            rcases List.mem_cons.mp hz with h | h
            · subst h; rfl
            · exact ih3 z h

/-- Claim C5: over path-like attachment entries, the verification pass
keeps exactly the existing entries in their original order, produces
exactly one does-not-exist warning line per missing entry (concatenated
in supply order), wraps a non-empty warning text in the single
equals-sign banner, prepends the banner to the outgoing message body,
and the Mail carries exactly one zipped attachment object per kept
entry, in their original order. -/
theorem C5_attachment_banner (h : SendGridHandler) (md : MessageDetails) (fs : FileSystem)
    (atts : List PyVal) (mail : SgMail)
    (hpl : ∀ a ∈ atts, isPathLike a = true)
    (hatts : md.attachments = AttachVal.list atts)
    (hprep : h.prepareMail md fs = SgPrep.ready mail) :
    (verifyAttachments fs atts).2 = atts.filter (fun a => fs.existsPath (pathStrOf a))
    ∧ (verifyLoop fs atts).1
        = ((atts.filter fun a => !fs.existsPath (pathStrOf a)).map
            fun a => "* Attachment \"" ++ pyShow a ++ "\" does not exist\n").foldr
            (fun x acc => x ++ acc) ""
    ∧ (verifyAttachments fs atts).1
        = (if (verifyLoop fs atts).1 = "" then "" else bannerOf (verifyLoop fs atts).1)
    ∧ mail.content_value
        = (verifyAttachments fs atts).1 ++ md.message ++ "\n\n" ++ h.client_name
          ++ " version: " ++ h.client_version
    ∧ processZips fs ((verifyAttachments fs atts).2) [] = Except.ok mail.attachments
    ∧ mail.attachments.length = ((verifyAttachments fs atts).2).length
    ∧ mail.attachments.map (fun z => z.source)
        = ((verifyAttachments fs atts).2).map pathStrOf := by
  have hvl := verifyLoop_pathlike fs atts hpl
  have hgood : (verifyAttachments fs atts).2 = atts.filter (fun a => fs.existsPath (pathStrOf a)) := by
    unfold verifyAttachments
    rw [hvl]
  have hlines : (verifyLoop fs atts).1
      = ((atts.filter fun a => !fs.existsPath (pathStrOf a)).map
          fun a => "* Attachment \"" ++ pyShow a ++ "\" does not exist\n").foldr
          (fun x acc => x ++ acc) "" := by
    rw [hvl]
  cases hva : verify_addresses h.sendgrid_settings with
  | error w => simp [SendGridHandler.prepareMail, hva] at hprep
  | ok p =>
    obtain ⟨fa, ta⟩ := p
    cases hrec : recipientsOf ta with
    | error e => simp [SendGridHandler.prepareMail, hva, hrec] at hprep
    | ok tos =>
      simp only [SendGridHandler.prepareMail, hva, hrec, hatts, AttachVal.iter] at hprep
      cases hz : processZips fs (verifyAttachments fs atts).2 [] with
      | error e => simp [hz] at hprep
      | ok zips =>
        simp only [hz, SgPrep.ready.injEq] at hprep
        subst hprep
        have hs := processZips_shape fs (verifyAttachments fs atts).2 [] zips hz
        exact ⟨hgood, hlines, rfl, rfl, rfl, hs.2.1, hs.1⟩

/-- The filesystem of the banner witness: three report files exist. -/
def fsC5 : FileSystem :=
  { files := ["/d/one.txt", "/d/two.txt", "/d/three.txt"], dirs := [] }

/-- Three existing attachments plus one missing one. -/
def attsC5 : List PyVal :=
  [PyVal.vStr "/d/one.txt", PyVal.vStr "/d/two.txt", PyVal.vStr "/d/three.txt",
   PyVal.vStr "/d/missing.txt"]

/-- The details of the banner witness. -/
def mdC5 : MessageDetails :=
  { message := "nightly job failed", attachments := AttachVal.list attsC5,
    log_file := Option.none, subject := "run report", project_name := "" }

/-- The handler of the banner witness. -/
def sgC5 : SendGridHandler :=
  { sendgrid_settings :=
      { from_address := some (SettingVal.str "noreply@x.com"),
        to_addresses := some (SettingVal.str "team@x.com"),
        api_key := some "SG.K", prefix_setting := Option.none },
    api_key := "SG.K", client_name := "client", client_version := "1.0" }

/-- The Mail sgC5 prepares from mdC5 on fsC5. -/
def mailC5 : SgMail :=
  { from_email := "noreply@x.com", tos := ["team@x.com"], subject := "run report",
    content_type := "text/plain",
    content_value := bannerOf "* Attachment \"/d/missing.txt\" does not exist\n"
      ++ "nightly job failed" ++ "\n\nclient version: 1.0",
    attachments :=
      [SgAttachment.mk "one.zip" "application/zip" "/d/one.txt",
       SgAttachment.mk "two.zip" "application/zip" "/d/two.txt",
       SgAttachment.mk "three.zip" "application/zip" "/d/three.txt"] }

/-- Claim C5 witness: three valid attachments plus one missing yield a
body carrying exactly one does-not-exist line and exactly the three
valid entries, zipped, in order. -/
theorem C5_attachment_banner_witness :
  (verifyAttachments fsC5 attsC5).2
      = [PyVal.vStr "/d/one.txt", PyVal.vStr "/d/two.txt", PyVal.vStr "/d/three.txt"]
  ∧ countOccurrences mailC5.content_value "does not exist" = 1
  ∧ mailC5.attachments.length = 3
  ∧ SendGridHandler.prepareMail sgC5 mdC5 fsC5 = SgPrep.ready mailC5 := by
  have h := C5_attachment_banner sgC5 mdC5 fsC5 attsC5 mailC5 (by decide) rfl (by decide)
  exact ⟨h.1.trans (by decide), by decide, by decide, by decide⟩

end AgrcSupervisor
